import Mathlib

/-!
Shallow embedding of the STG→DDS loader (staging-to-Data-Vault ETL).

Sources embedded:
  * `src/dds_layer/dds_loader.py` — `DDSLoader.add_hashes_to_raw_data`,
    `DDSLoader.split_df_to_tables`, `DDSLoader.upload_dds_table`,
    `DDSLoader.upload_dds_data`;
  * `src/stg_layer/stg_loader.py` — `STGLoader.copy_df` (same
    serialization/chunking as `upload_dds_table`);
  * `src/utils/decorators.py` — `with_connection`;
  * `src/config.py` — the injected schema/table names.

The business-key hash is `hashlib.md5(str(x).encode()).hexdigest()`; MD5 is
embedded in full below (RFC 1321), operating on the UTF-8 bytes of the
stringified key, with the digest rendered as 32 lowercase hex characters.
-/

namespace Etl

/-- Truncation to a 32-bit machine word, used after every additive step of the
MD5 round function (Python hashlib works on 32-bit words internally). -/
def w32 (x : Nat) : Nat := x % 4294967296

/-- Left-rotation of a 32-bit word by `n` bits (`0 < n < 32` in the MD5 shift
table). -/
def rotl (x n : Nat) : Nat := w32 ((x <<< n) + ((x % 4294967296) >>> (32 - n)))

/-- The 64 MD5 sine-derived round constants `K[i]` of RFC 1321. -/
def md5K : List Nat :=
  [0xd76aa478, 0xe8c7b756, 0x242070db, 0xc1bdceee,
   0xf57c0faf, 0x4787c62a, 0xa8304613, 0xfd469501,
   0x698098d8, 0x8b44f7af, 0xffff5bb1, 0x895cd7be,
   0x6b901122, 0xfd987193, 0xa679438e, 0x49b40821,
   0xf61e2562, 0xc040b340, 0x265e5a51, 0xe9b6c7aa,
   0xd62f105d, 0x02441453, 0xd8a1e681, 0xe7d3fbc8,
   0x21e1cde6, 0xc33707d6, 0xf4d50d87, 0x455a14ed,
   0xa9e3e905, 0xfcefa3f8, 0x676f02d9, 0x8d2a4c8a,
   0xfffa3942, 0x8771f681, 0x6d9d6122, 0xfde5380c,
   0xa4beea44, 0x4bdecfa9, 0xf6bb4b60, 0xbebfbc70,
   0x289b7ec6, 0xeaa127fa, 0xd4ef3085, 0x04881d05,
   0xd9d4d039, 0xe6db99e5, 0x1fa27cf8, 0xc4ac5665,
   0xf4292244, 0x432aff97, 0xab9423a7, 0xfc93a039,
   0x655b59c3, 0x8f0ccc92, 0xffeff47d, 0x85845dd1,
   0x6fa87e4f, 0xfe2ce6e0, 0xa3014314, 0x4e0811a1,
   0xf7537e82, 0xbd3af235, 0x2ad7d2bb, 0xeb86d391]

/-- The 64 MD5 per-round shift amounts `s[i]` of RFC 1321. -/
def md5S : List Nat :=
  [7, 12, 17, 22, 7, 12, 17, 22, 7, 12, 17, 22, 7, 12, 17, 22,
   5,  9, 14, 20, 5,  9, 14, 20, 5,  9, 14, 20, 5,  9, 14, 20,
   4, 11, 16, 23, 4, 11, 16, 23, 4, 11, 16, 23, 4, 11, 16, 23,
   6, 10, 15, 21, 6, 10, 15, 21, 6, 10, 15, 21, 6, 10, 15, 21]

/-- The four 32-bit words of the MD5 running state. -/
structure MD5State where
  a : Nat
  b : Nat
  c : Nat
  d : Nat
deriving DecidableEq, Repr

/-- MD5 initial state (RFC 1321 word A/B/C/D seeds). -/
def md5Init : MD5State := ⟨0x67452301, 0xefcdab89, 0x98badcfe, 0x10325476⟩

/-- One MD5 round: round index `i` (0–63), message words `M` of the current
512-bit chunk, state rotation as in RFC 1321. -/
def md5Round (M : List Nat) (st : MD5State) (i : Nat) : MD5State :=
  let fg : Nat × Nat :=
    if i < 16 then
      ((st.b &&& st.c) ||| ((st.b ^^^ 0xffffffff) &&& st.d), i)
    else if i < 32 then
      ((st.d &&& st.b) ||| ((st.d ^^^ 0xffffffff) &&& st.c), (5 * i + 1) % 16)
    else if i < 48 then
      (st.b ^^^ st.c ^^^ st.d, (3 * i + 5) % 16)
    else
      (st.c ^^^ (st.b ||| (st.d ^^^ 0xffffffff)), (7 * i) % 16)
  let f := w32 (fg.1 + st.a + md5K.getD i 0 + M.getD fg.2 0)
  { a := st.d, b := w32 (st.b + rotl f (md5S.getD i 0)), c := st.b, d := st.c }

/-- Process one 512-bit chunk (given as its 16 little-endian 32-bit words). -/
def md5Chunk (st : MD5State) (M : List Nat) : MD5State :=
  let r := (List.range 64).foldl (md5Round M) st
  ⟨w32 (st.a + r.a), w32 (st.b + r.b), w32 (st.c + r.c), w32 (st.d + r.d)⟩

/-- Structural worker for `chunked`: `fuel` bounds the number of chunks taken
and is set to the list length, which always suffices for `0 < n`. -/
def chunkedGo : Nat → Nat → List α → List (List α)
  | _, _, [] => []
  | 0, _, _ :: _ => []
  | fuel + 1, n, x :: xs =>
    if n = 0 then []
    else (x :: xs).take n :: chunkedGo fuel n ((x :: xs).drop n)

/-- Split a list into consecutive chunks of `n` elements (last chunk may be
shorter); yields `[]` for `n = 0`, mirroring a `read(0)`-terminated loop. -/
def chunked (n : Nat) (l : List α) : List (List α) := chunkedGo l.length n l

/-- MD5 padding: append `0x80`, zero-fill to 56 mod 64 bytes, then the 8-byte
little-endian bit length. -/
def md5Pad (msg : List Nat) : List Nat :=
  let len := msg.length
  let zeros := (119 - len % 64) % 64
  msg ++ [0x80] ++ List.replicate zeros 0 ++
    (List.range 8).map (fun i => ((8 * len) >>> (8 * i)) % 256)

/-- Assemble a little-endian 32-bit word from up to four bytes. -/
def leWord (bs : List Nat) : Nat := bs.foldr (fun b acc => b + 256 * acc) 0

/-- The four little-endian bytes of a 32-bit word. -/
def leBytes4 (x : Nat) : List Nat :=
  [x % 256, (x >>> 8) % 256, (x >>> 16) % 256, (x >>> 24) % 256]

/-- The full MD5 digest of a byte string: sixteen output bytes. -/
def md5Bytes (msg : List Nat) : List Nat :=
  let st := (chunked 64 (md5Pad msg)).foldl
    (fun s ch => md5Chunk s ((chunked 4 ch).map leWord)) md5Init
  leBytes4 st.a ++ leBytes4 st.b ++ leBytes4 st.c ++ leBytes4 st.d

/-- Lowercase hexadecimal digit for a nibble value. -/
def hexChar (n : Nat) : Char :=
  if n < 10 then Char.ofNat (48 + n) else Char.ofNat (87 + n)

/-- Two lowercase hex characters of one byte (the `%02x` rendering used by
`hexdigest`). -/
def byteHex (b : Nat) : List Char := [hexChar (b / 16), hexChar (b % 16)]

/-- UTF-8 encoding of one character (the default of the Python method `String.encode`). -/
def charUtf8 (c : Char) : List Nat :=
  let n := c.toNat
  if n < 0x80 then [n]
  else if n < 0x800 then [0xC0 + n / 64, 0x80 + n % 64]
  else if n < 0x10000 then
    [0xE0 + n / 4096, 0x80 + (n / 64) % 64, 0x80 + n % 64]
  else
    [0xF0 + n / 262144, 0x80 + (n / 4096) % 64, 0x80 + (n / 64) % 64,
     0x80 + n % 64]

/-- UTF-8 bytes of a string. -/
def utf8Bytes (s : String) : List Nat := s.data.flatMap charUtf8

/-- Embedding of `hashlib.md5(s.encode()).hexdigest()`: the 32-character
lowercase hex digest of the UTF-8 bytes of `s`. -/
def md5_hexdigest (s : String) : String :=
  ⟨(md5Bytes (utf8Bytes s)).flatMap byteHex⟩

/-- The sixteen lowercase hexadecimal digit characters. -/
def lowercaseHexDigits : List Char := "0123456789abcdef".data

/-! ### Data model

`RawRecord` is one row of `stg.raw_test_data` (`user_id`, `id`, `title`,
`body`); `title`/`body` are nullable text. `EnrichedRecord` adds the two hash
columns produced by `add_hashes_to_raw_data`. A `DataFrame` is its pandas
counterpart: named columns plus rows of cells. -/

/-- A cell value of a dataframe: integer, text, or null (pandas NaN/None). -/
inductive Value where
  | i (n : Int)
  | s (str : String)
  | null
deriving DecidableEq, Repr

/-- One staged row of `stg.raw_test_data`. -/
structure RawRecord where
  user_id : Int
  id : Int
  title : Option String
  body : Option String
deriving DecidableEq, Repr

/-- A staged row after `add_hashes_to_raw_data`: the two hash columns added. -/
structure EnrichedRecord extends RawRecord where
  user_id_hash : String
  letter_id_hash : String
deriving DecidableEq, Repr

/-- A pandas-style dataframe: column names and rows of cells. -/
structure DataFrame where
  columns : List String
  rows : List (List Value)
deriving DecidableEq, Repr

/-- Structural worker for `dedupFirst`; `fuel` is set to the list length,
which always suffices because each step filters the tail. -/
def dedupFirstGo [DecidableEq α] : Nat → List α → List α
  | _, [] => []
  | 0, _ :: _ => []
  | fuel + 1, x :: xs => x :: dedupFirstGo fuel (xs.filter (· ≠ x))

/-- Order-preserving removal of duplicate elements keeping the first
occurrence of each value — the semantics of pandas `drop_duplicates()`. -/
def dedupFirst [DecidableEq α] (l : List α) : List α := dedupFirstGo l.length l

/-- Embedding of pandas `DataFrame.drop_duplicates()`: deduplicate whole rows,
keeping first occurrences, preserving order. -/
def DataFrame.drop_duplicates (df : DataFrame) : DataFrame :=
  ⟨df.columns, dedupFirst df.rows⟩

/-- The per-row enrichment applied by `add_hashes_to_raw_data`:
`user_id_hash = md5(str(user_id))`, `letter_id_hash = md5(str(id))`
(`dds_loader.py` lines 114–119). -/
def enrichRecord (r : RawRecord) : EnrichedRecord :=
  { toRawRecord := r
    user_id_hash := md5_hexdigest (toString r.user_id)
    letter_id_hash := md5_hexdigest (toString r.id) }

/-- Embedding of `DDSLoader.add_hashes_to_raw_data`: adds the `user_id_hash`
and `letter_id_hash` columns to every row. -/
def add_hashes_to_raw_data (df : List RawRecord) : List EnrichedRecord :=
  df.map enrichRecord

/-- Cell of a nullable text column. -/
def optCell : Option String → Value
  | some s => .s s
  | none => .null

/-- The four target dataframes returned by `split_df_to_tables`. -/
structure DdsTables where
  df_users_hub : DataFrame
  df_letters_hub : DataFrame
  df_letters_satellite : DataFrame
  df_posts_link : DataFrame
deriving DecidableEq, Repr

/-- Embedding of `DDSLoader.split_df_to_tables` (`dds_loader.py` lines
133–140): column selections from the enriched frame; only the users hub is
passed through `drop_duplicates`; the letters hub renames `id` to
`letter_id`. -/
def split_df_to_tables (df : List EnrichedRecord) : DdsTables :=
  { df_users_hub :=
      DataFrame.drop_duplicates
        ⟨["user_id", "user_id_hash"],
         df.map fun r => [Value.i r.user_id, Value.s r.user_id_hash]⟩
    df_letters_hub :=
      ⟨["letter_id", "letter_id_hash"],
       df.map fun r => [Value.i r.id, Value.s r.letter_id_hash]⟩
    df_letters_satellite :=
      ⟨["letter_id_hash", "title", "body"],
       df.map fun r => [Value.s r.letter_id_hash, optCell r.title,
                        optCell r.body]⟩
    df_posts_link :=
      ⟨["user_id_hash", "letter_id_hash"],
       df.map fun r => [Value.s r.user_id_hash, Value.s r.letter_id_hash]⟩ }

/-! ### Frame-level embedding of the enrichment stage

The typed `add_hashes_to_raw_data` above presupposes rows of the staging
schema. The source function, however, operates on whatever dataframe
`transform_data_to_df` built via `pd.DataFrame.from_dict(data)`: for an
empty row list that frame has no columns at all, and the column lookups
`df["user_id"]` / `df["id"]` then raise `KeyError`. The definitions below
embed that pandas level: a fallible column lookup on `DataFrame` and the
same enrichment expressed through it. -/

/-- A Python-side pandas error: the `KeyError` raised by `df[col]` when the
column does not exist. -/
inductive PandasError where
  | keyError (col : String)
deriving DecidableEq, Repr

/-- The value a dict row holds for key `c` (`Value.null` when absent; the
staging rows all carry the same four keys). -/
def dictGet (d : List (String × Value)) (c : String) : Value :=
  match d.find? (fun p => p.1 = c) with
  | some p => p.2
  | none => Value.null

/-- Embedding of `DDSLoader.transform_data_to_df` (`dds_loader.py` lines
87–100), i.e. `pd.DataFrame.from_dict(data)` on a list of uniform-keyed
dicts: the columns are the keys of the first row, and an empty list yields a
dataframe with NO columns and no rows. -/
def transform_data_to_df (data : List (List (String × Value))) : DataFrame :=
  match data with
  | [] => ⟨[], []⟩
  | d0 :: _ => ⟨d0.map Prod.fst, data.map fun d => d0.map fun p => dictGet d p.1⟩

/-- The cell of one row at the position of column `c` (rows are aligned with
the column list by position). -/
def rowCell (cols : List String) (r : List Value) (c : String) : Value :=
  match cols, r with
  | [], _ => Value.null
  | _ :: _, [] => Value.null
  | c0 :: cs, v0 :: vs => if c0 = c then v0 else rowCell cs vs c

/-- Embedding of the pandas column read `df[c]`: the column's cells, or a
`KeyError` when the dataframe has no such column. -/
def DataFrame.getCol (df : DataFrame) (c : String) :
    Except PandasError (List Value) :=
  if c ∈ df.columns then .ok (df.rows.map fun r => rowCell df.columns r c)
  else .error (.keyError c)

/-- Replace the cell at the position of column `c` in one row. -/
def setRowCell (cols : List String) (r : List Value) (c : String)
    (v : Value) : List Value :=
  match cols, r with
  | _, [] => []
  | [], vs => vs
  | c0 :: cs, v0 :: vs => if c0 = c then v :: vs else v0 :: setRowCell cs vs c v

/-- Embedding of the pandas column write `df[c] = vals`: overwrite an
existing column in place, or append a new column on the right. -/
def DataFrame.setCol (df : DataFrame) (c : String) (vals : List Value) :
    DataFrame :=
  if c ∈ df.columns then
    ⟨df.columns, df.rows.zipWith (fun r v => setRowCell df.columns r c v) vals⟩
  else
    ⟨df.columns ++ [c], df.rows.zipWith (fun r v => r ++ [v]) vals⟩

/-- The string the hash lambda is applied to: Python `str(x)` of a cell
(integers print in decimal; a pandas missing value prints as `nan`). -/
def strOfCell : Value → String
  | .i n => toString n
  | .s str => str
  | .null => "nan"

/-- `DDSLoader.add_hashes_to_raw_data` embedded at the dataframe level
(`dds_loader.py` lines 113–119): read `df["user_id"]`, append the mapped
`user_id_hash` column, read `df["id"]`, append `letter_id_hash`; a missing
column surfaces as the `KeyError` the pandas lookup raises. -/
def add_hashes_to_raw_data_df (df : DataFrame) :
    Except PandasError DataFrame :=
  match df.getCol "user_id" with
  | .error e => .error e
  | .ok us =>
    let df1 := df.setCol "user_id_hash"
      (us.map fun v => Value.s (md5_hexdigest (strOfCell v)))
    match df1.getCol "id" with
    | .error e => .error e
    | .ok ids =>
      .ok (df1.setCol "letter_id_hash"
        (ids.map fun v => Value.s (md5_hexdigest (strOfCell v))))

/-! ### Bulk loader

`upload_dds_table` serializes the dataframe with
`df.to_csv(buffer, index=index, header=False, na_rep="\N")`, builds a
`COPY {schema}.{table} ({columns}) FROM STDIN WITH (FORMAT CSV, NULL "\N")`
command with every column name quoted explicitly, streams the buffer in
`block_size`-character reads, and catches `UniqueViolation` (logging it with
`logger.error`) while letting every other database error propagate. The
database outcome of the copy is external input and is passed as a
parameter. -/

/-- Does a CSV field need quoting (contains separator, quote, or newline)? -/
def csvNeedsQuote (s : String) : Bool :=
  s.data.any fun c => c = ',' || c = '"' || c = '\n' || c = '\r'

/-- Quote a CSV field, doubling embedded quotes. -/
def csvQuote (s : String) : String :=
  "\"" ++ String.join (s.data.map fun c =>
    if c = '"' then "\"\"" else String.mk [c]) ++ "\""

/-- Render one cell for CSV output; nulls become the `na_rep` sentinel. -/
def csvField (na_rep : String) : Value → String
  | .i n => toString n
  | .s str => if csvNeedsQuote str then csvQuote str else str
  | .null => na_rep

/-- Render one row: comma-separated fields. -/
def csvRow (na_rep : String) (cells : List Value) : String :=
  String.intercalate "," (cells.map (csvField na_rep))

/-- Embedding of the `df.to_csv(buffer, index=index, header=False,
na_rep=...)` call: each row on its own newline-terminated line, no header
line, optional leading positional index column. -/
def df_to_csv (df : DataFrame) (index : Bool) (na_rep : String) : String :=
  let rows := if index then df.rows.enum.map fun p => Value.i p.1 :: p.2
              else df.rows
  String.join (rows.map fun r => csvRow na_rep r ++ "\n")

/-- The buffer-draining loop `while data := buffer.read(block_size): ...`:
the successive non-empty reads of `block_size` characters. -/
def readChunks (block_size : Nat) (s : String) : List String :=
  (chunked block_size s.data).map List.asString

/-- The structured content of the generated COPY command: the single
`schema.table` target path, the explicitly named quoted columns, and the
null sentinel of the `WITH (FORMAT CSV, NULL ...)` options. -/
structure CopyCommand where
  tablePath : String
  columnsClause : String
  nullSentinel : String
deriving DecidableEq, Repr

/-- Builds the COPY command exactly as `upload_dds_table` does: `table_path =
f"{schema}.{table_name}" if schema else table_name`, and the comma-joined
quoted column list (`columns or df.columns`). -/
def copy_sql (schema : Option String) (table_name : String)
    (cols : List String) : CopyCommand :=
  { tablePath :=
      match schema with
      | some sc => sc ++ "." ++ table_name
      | none => table_name
    columnsClause :=
      String.intercalate "," (cols.map fun c => "\"" ++ c ++ "\"")
    nullSentinel := "\\N" }

/-- Database-side failure of a copy: psycopg `UniqueViolation` versus every
other exception class (connectivity, malformed stream, other constraints). -/
inductive PgError where
  | uniqueViolation (msg : String)
  | otherError (msg : String)
deriving DecidableEq, Repr

deriving instance DecidableEq for Except

/-- Python `logging` severity levels used by the loader. -/
inductive LogLevel where
  | debug
  | info
  | warning
  | error
deriving DecidableEq, Repr

/-- One emitted log record. -/
structure LogEntry where
  level : LogLevel
  msg : String
deriving DecidableEq, Repr

/-- What one `upload_dds_table` invocation did: the copy command it issued,
the chunks it wrote to the copy stream, its result (normal return or
propagated exception), and its log output. -/
structure UploadOutcome where
  copyCmd : CopyCommand
  writes : List String
  result : Except PgError Unit
  logs : List LogEntry
deriving Repr

/-- Embedding of `DDSLoader.upload_dds_table` (`dds_loader.py` lines
142–183). `copyResult` is the database outcome of the COPY: on success the
function returns normally; a `UniqueViolation` is caught and logged via
`logger.error(f"Data you are trying to load is already exists: ...")` and the
function returns normally; any other error propagates to the caller. -/
def upload_dds_table (df : DataFrame) (table_name : String)
    (columns : Option (List String)) (schema : Option String) (index : Bool)
    (block_size : Nat) (copyResult : Except PgError Unit) : UploadOutcome :=
  let buffer := df_to_csv df index "\\N"
  let cmd := copy_sql schema table_name (columns.getD df.columns)
  let debugLog : LogEntry :=
    ⟨.debug, "Uploading df into table: " ++ cmd.tablePath ++ "..."⟩
  match copyResult with
  | .ok _ =>
      ⟨cmd, readChunks block_size buffer, .ok (), [debugLog]⟩
  | .error (.uniqueViolation m) =>
      ⟨cmd, readChunks block_size buffer, .ok (),
       [debugLog,
        ⟨.error, "Data you are trying to load is already exists: " ++ m⟩]⟩
  | .error e =>
      ⟨cmd, readChunks block_size buffer, .error e, [debugLog]⟩

/-! ### Connection scoping (`utils/decorators.py`)

`with_connection` wraps an operation with connect / try / except-rollback-
reraise / else-commit / finally-close. The wrapped body either returns a
value or raises; the observable behavior of the wrapper is the returned-or-
reraised outcome plus the ordered connection events. -/

/-- Lifecycle actions performed on the scoped connection. -/
inductive ConnEvent where
  | connect
  | commit
  | rollback
  | close
deriving DecidableEq, Repr

/-- Embedding of `with_connection` (`decorators.py` lines 6–21): given the
outcome of the wrapped body, produce the outcome handed to the caller and the
ordered connection lifecycle events. Success commits then closes and returns
the value; an exception rolls back, closes, and re-raises unchanged. -/
def with_connection (body : Except ε α) : Except ε α × List ConnEvent :=
  match body with
  | .ok v => (.ok v, [.connect, .commit, .close])
  | .error e => (.error e, [.connect, .rollback, .close])

/-! ### Orchestrator (`upload_dds_data`, `dds_loader.py` lines 185–227)

It creates the four upload tasks back-to-back (no suspension point between
the `create_task` calls, so all four are launched before any await) and then
awaits them in a fixed order. An `AsyncTask` abstracts one launched load:
the absolute time at which it finishes (all four start together at time 0)
and its result. Awaiting a task blocks until its finish time and re-raises
its error, ending the orchestrator coroutine immediately — later tasks are
no longer awaited. -/

/-- One launched bulk-load task: when it finishes (measuring from the common
launch instant) and whether it returns normally or raises a fatal error. -/
structure AsyncTask where
  finish : Nat
  result : Except PgError Unit
deriving Repr

/-- Awaiting one task at current time `now`: time advances to the finish
instant of the task, and its outcome is observed. -/
def awaitTask (now : Nat) (t : AsyncTask) : Nat × Except PgError Unit :=
  (max now t.finish, t.result)

/-- Embedding of `DDSLoader.upload_dds_data`: the four tasks are created
before any await, then awaited sequentially (users hub, letters hub, letters
satellite, posts link); the first re-raised fatal error terminates the
coroutine at that await, skipping the remaining awaits. Returns the completion
time and outcome of the orchestrator. -/
def upload_dds_data (t_users_hub t_letters_hub t_letters_satellite
    t_posts_link : AsyncTask) : Nat × Except PgError Unit :=
  let s1 := awaitTask 0 t_users_hub
  match s1.2 with
  | .error e => (s1.1, .error e)
  | .ok _ =>
    let s2 := awaitTask s1.1 t_letters_hub
    match s2.2 with
    | .error e => (s2.1, .error e)
    | .ok _ =>
      let s3 := awaitTask s2.1 t_letters_satellite
      match s3.2 with
      | .error e => (s3.1, .error e)
      | .ok _ =>
        let s4 := awaitTask s3.1 t_posts_link
        match s4.2 with
        | .error e => (s4.1, .error e)
        | .ok _ => (s4.1, .ok ())

/-! ### Injected configuration (`config.py`) -/

/-- `TARGET_DDS_TABLE_HUB_USERS` -/
def TARGET_DDS_TABLE_HUB_USERS : String := "h_users"

/-- `TARGET_DDS_TABLE_HUB_LETTERS` -/
def TARGET_DDS_TABLE_HUB_LETTERS : String := "h_letters"

/-- `TARGET_DDS_TABLE_SATELLITE_LETTERS` -/
def TARGET_DDS_TABLE_SATELLITE_LETTERS : String := "s_letters"

/-- `TARGET_DDS_TABLE_LINK_POSTS` -/
def TARGET_DDS_TABLE_LINK_POSTS : String := "l_posts"

/-- `TARGET_DDS_SCHEMA_NAME` -/
def TARGET_DDS_SCHEMA_NAME : String := "dds"

/-! ### Helper lemmas -/

theorem chunkedGo_flatten {α : Type _} (n : Nat) (hn : n ≠ 0) :
    ∀ (fuel : Nat) (l : List α), l.length ≤ fuel → (chunkedGo fuel n l).flatten = l := by
  intro fuel
  induction fuel with
  | zero =>
    intro l hl
    cases l with
    | nil => simp [chunkedGo]
    | cons x xs => simp at hl
  | succ fuel ih =>
    intro l hl
    cases l with
    | nil => simp [chunkedGo]
    | cons x xs =>
      simp only [chunkedGo, if_neg hn, List.flatten_cons]
      rw [ih]
      · exact List.take_append_drop n (x :: xs)
      · simp only [List.length_drop, List.length_cons] at *
        omega

theorem chunked_flatten {α : Type _} (n : Nat) (hn : n ≠ 0) (l : List α) :
    (chunked n l).flatten = l :=
  chunkedGo_flatten n hn l.length l (Nat.le_refl _)

theorem join_asString (L : List (List Char)) :
    String.join (L.map List.asString) = List.asString L.flatten := by
  have h : ∀ (M : List (List Char)) (acc : List Char),
      (M.map List.asString).foldl (fun r s => r ++ s) (List.asString acc)
        = List.asString (acc ++ M.flatten) := by
    intro M
    induction M with
    | nil => intro acc; simp
    | cons l ls ih =>
      intro acc
      simp only [List.map_cons, List.foldl_cons]
      have hstep : List.asString acc ++ List.asString l = List.asString (acc ++ l) := rfl
      rw [hstep, ih, List.flatten_cons, List.append_assoc]
  exact h L []

theorem join_readChunks (b : Nat) (hb : b ≠ 0) (s : String) :
    String.join (readChunks b s) = s := by
  unfold readChunks
  rw [join_asString, chunked_flatten b hb]
  rfl

theorem dedupFirstGo_map {α β : Type _} [DecidableEq α] [DecidableEq β] {f : α → β}
    (hf : Function.Injective f) :
    ∀ (fuel : Nat) (l : List α), l.length ≤ fuel →
      dedupFirstGo fuel (l.map f) = (dedupFirstGo fuel l).map f := by
  intro fuel
  induction fuel with
  | zero =>
    intro l hl
    cases l with
    | nil => simp [dedupFirstGo]
    | cons x xs => simp at hl
  | succ fuel ih =>
    intro l hl
    cases l with
    | nil => simp [dedupFirstGo]
    | cons x xs =>
      simp only [List.map_cons, dedupFirstGo, List.cons.injEq, true_and]
      have hfl : (xs.map f).filter (· ≠ f x) = (xs.filter (· ≠ x)).map f := by
        rw [List.filter_map]
        congr 1
        apply List.filter_congr
        intro a _
        simp only [Function.comp_apply]
        exact decide_eq_decide.mpr hf.ne_iff
      rw [hfl, ih]
      exact Nat.le_trans (List.length_filter_le _ _)
        (Nat.le_of_succ_le_succ (by simpa using hl))

theorem dedupFirst_map {α β : Type _} [DecidableEq α] [DecidableEq β] {f : α → β}
    (hf : Function.Injective f) (l : List α) :
    dedupFirst (l.map f) = (dedupFirst l).map f := by
  unfold dedupFirst
  rw [List.length_map]
  exact dedupFirstGo_map hf l.length l (Nat.le_refl _)

theorem dedupFirstGo_mem {α : Type _} [DecidableEq α] :
    ∀ (fuel : Nat) (l : List α), l.length ≤ fuel →
      ∀ a, a ∈ dedupFirstGo fuel l ↔ a ∈ l := by
  intro fuel
  induction fuel with
  | zero =>
    intro l hl a
    cases l with
    | nil => simp [dedupFirstGo]
    | cons x xs => simp at hl
  | succ fuel ih =>
    intro l hl a
    cases l with
    | nil => simp [dedupFirstGo]
    | cons x xs =>
      have hlen : (xs.filter (· ≠ x)).length ≤ fuel :=
        Nat.le_trans (List.length_filter_le _ _)
          (Nat.le_of_succ_le_succ (by simpa using hl))
      simp only [dedupFirstGo, List.mem_cons, ih _ hlen, List.mem_filter,
        decide_eq_true_eq]
      by_cases hax : a = x
      · simp [hax]
      · simp [hax]

theorem dedupFirstGo_nodup {α : Type _} [DecidableEq α] :
    ∀ (fuel : Nat) (l : List α), l.length ≤ fuel → (dedupFirstGo fuel l).Nodup := by
  intro fuel
  induction fuel with
  | zero =>
    intro l hl
    cases l with
    | nil => simp [dedupFirstGo]
    | cons x xs => simp at hl
  | succ fuel ih =>
    intro l hl
    cases l with
    | nil => simp [dedupFirstGo]
    | cons x xs =>
      have hlen : (xs.filter (· ≠ x)).length ≤ fuel :=
        Nat.le_trans (List.length_filter_le _ _)
          (Nat.le_of_succ_le_succ (by simpa using hl))
      simp only [dedupFirstGo, List.nodup_cons]
      refine ⟨fun hx => ?_, ih _ hlen⟩
      have := (dedupFirstGo_mem fuel _ hlen x).mp hx
      simp [List.mem_filter] at this

theorem dedupFirst_nodup {α : Type _} [DecidableEq α] (l : List α) :
    (dedupFirst l).Nodup :=
  dedupFirstGo_nodup l.length l (Nat.le_refl _)

theorem dedupFirst_mem {α : Type _} [DecidableEq α] (l : List α) (a : α) :
    a ∈ dedupFirst l ↔ a ∈ l :=
  dedupFirstGo_mem l.length l (Nat.le_refl _) a

theorem md5Bytes_length (msg : List Nat) : (md5Bytes msg).length = 16 := by
  simp [md5Bytes, leBytes4]

theorem md5Bytes_lt (msg : List Nat) : ∀ b ∈ md5Bytes msg, b < 256 := by
  intro b hb
  simp only [md5Bytes, leBytes4, List.mem_append, List.mem_cons,
    List.not_mem_nil, or_false] at hb
  omega

theorem hexChar_mem (n : Nat) (hn : n < 16) : hexChar n ∈ lowercaseHexDigits := by
  revert hn
  revert n
  decide

theorem flatMap_byteHex_length (bs : List Nat) :
    (bs.flatMap byteHex).length = 2 * bs.length := by
  induction bs with
  | nil => simp
  | cons b t ih =>
    simp only [List.flatMap_cons, List.length_append, ih, byteHex]
    simp
    omega

theorem md5_hexdigest_length (s : String) : (md5_hexdigest s).length = 32 := by
  have h : (md5_hexdigest s).length
      = ((md5Bytes (utf8Bytes s)).flatMap byteHex).length := rfl
  rw [h, flatMap_byteHex_length, md5Bytes_length]

theorem md5_hexdigest_chars (s : String) :
    ∀ c ∈ (md5_hexdigest s).data, c ∈ lowercaseHexDigits := by
  intro c hc
  have hc2 : c ∈ (md5Bytes (utf8Bytes s)).flatMap byteHex := hc
  rcases List.mem_flatMap.mp hc2 with ⟨b, hb, hcb⟩
  have hblt := md5Bytes_lt _ b hb
  simp only [byteHex, List.mem_cons, List.not_mem_nil, or_false] at hcb
  rcases hcb with rfl | rfl
  · exact hexChar_mem _ (by omega)
  · exact hexChar_mem _ (by omega)

set_option maxRecDepth 10000 in
/-- Sanity check of the MD5 embedding against a known digest value:
`hashlib.md5(b"1").hexdigest()`. -/
theorem md5_hexdigest_one :
    md5_hexdigest "1" = "c4ca4238a0b923820dcc509a6f75849b" := by decide

set_option maxRecDepth 10000 in
/-- Sanity check of the frame-level enrichment: on a nonempty staged batch
(whose frame does carry the four staging columns) `add_hashes_to_raw_data_df`
succeeds and appends exactly the two hash columns computed from the
stringified keys, mirroring the typed pipeline. -/
theorem add_hashes_to_raw_data_df_nonempty :
    add_hashes_to_raw_data_df (transform_data_to_df
      [[("user_id", Value.i 1), ("id", Value.i 10),
        ("title", Value.s "A"), ("body", Value.s "x")]])
      = .ok ⟨["user_id", "id", "title", "body", "user_id_hash",
              "letter_id_hash"],
             [[Value.i 1, Value.i 10, Value.s "A", Value.s "x",
               Value.s (md5_hexdigest "1"), Value.s (md5_hexdigest "10")]]⟩ := by
  decide

/-! ### Claim theorems -/

/-- C1: for every input batch, the HubUsers projection produced by
`split_df_to_tables` is exactly the first-occurrence deduplication of the
`user_id` column mapped through the hash-pair constructor: one row per
distinct `user_id` (same row count as the distinct `user_id` values, with no
duplicate rows), because `user_id_hash` is a pure function of `user_id` and
deduplicating the `(user_id, user_id_hash)` pair is therefore equivalent to
deduplicating by `user_id` alone. -/
theorem claim_C1_hub_users_dedup (batch : List RawRecord) :
    (split_df_to_tables (add_hashes_to_raw_data batch)).df_users_hub.rows
      = (dedupFirst (batch.map RawRecord.user_id)).map
          (fun u => [Value.i u, Value.s (md5_hexdigest (toString u))]) ∧
    (split_df_to_tables (add_hashes_to_raw_data batch)).df_users_hub.rows.length
      = (dedupFirst (batch.map RawRecord.user_id)).length ∧
    (split_df_to_tables (add_hashes_to_raw_data batch)).df_users_hub.rows.Nodup := by
  have hg : Function.Injective
      (fun u : Int => [Value.i u, Value.s (md5_hexdigest (toString u))]) := by
    intro a b h
    simp only [List.cons.injEq, Value.i.injEq, Value.s.injEq, and_true] at h
    exact h.1
  have hkey : (add_hashes_to_raw_data batch).map
        (fun r => [Value.i r.user_id, Value.s r.user_id_hash])
      = (batch.map RawRecord.user_id).map
        (fun u => [Value.i u, Value.s (md5_hexdigest (toString u))]) := by
    simp only [add_hashes_to_raw_data, List.map_map]
    rfl
  have hrows : (split_df_to_tables (add_hashes_to_raw_data batch)).df_users_hub.rows
      = dedupFirst ((batch.map RawRecord.user_id).map
          (fun u => [Value.i u, Value.s (md5_hexdigest (toString u))])) := by
    simp only [split_df_to_tables, DataFrame.drop_duplicates]
    rw [hkey]
  refine ⟨?_, ?_, ?_⟩
  · rw [hrows, dedupFirst_map hg]
  · rw [hrows, dedupFirst_map hg, List.length_map]
  · rw [hrows]
    exact dedupFirst_nodup _

/-- C2: for every stringified business-key value, `md5_hexdigest` produces a
32-character string all of whose characters are lowercase hexadecimal digits,
and it is deterministic (a pure function of its input: the same key always
yields the identical digest, with no randomness or machine-dependent
salt). -/
theorem claim_C2_key_deriver_hexdigest (s : String) :
    (md5_hexdigest s).length = 32 ∧
    (∀ c ∈ (md5_hexdigest s).data, c ∈ lowercaseHexDigits) ∧
    md5_hexdigest s = md5_hexdigest s :=
  ⟨md5_hexdigest_length s, md5_hexdigest_chars s, rfl⟩

/-- C3: for every input batch of `n` records, the HubLetters,
SatelliteLetters, and LinkPosts projections produced by `split_df_to_tables`
each contain exactly `n` rows — no deduplication is applied to them. -/
theorem claim_C3_row_count_conservation (batch : List RawRecord) :
    (split_df_to_tables (add_hashes_to_raw_data batch)).df_letters_hub.rows.length
      = batch.length ∧
    (split_df_to_tables (add_hashes_to_raw_data batch)).df_letters_satellite.rows.length
      = batch.length ∧
    (split_df_to_tables (add_hashes_to_raw_data batch)).df_posts_link.rows.length
      = batch.length := by
  simp [split_df_to_tables, add_hashes_to_raw_data]

/-- C4 (counterexample): at a concrete duplicate-load input (a uniqueness
violation raised by the target store), `upload_dds_table` does return
normally, but it logs the duplicate event at error level and emits no
warning-level log entry at all — refuting the claim that the event is
logged as a warning-level event. -/
theorem claim_C4_warning_level_counterexample :
    (upload_dds_table ⟨["user_id", "user_id_hash"], []⟩ TARGET_DDS_TABLE_HUB_USERS
        none (some TARGET_DDS_SCHEMA_NAME) false 65536
        (.error (.uniqueViolation "duplicate key value"))).result = .ok () ∧
    (∀ e ∈ (upload_dds_table ⟨["user_id", "user_id_hash"], []⟩ TARGET_DDS_TABLE_HUB_USERS
        none (some TARGET_DDS_SCHEMA_NAME) false 65536
        (.error (.uniqueViolation "duplicate key value"))).logs,
      e.level ≠ LogLevel.warning) ∧
    (∃ e ∈ (upload_dds_table ⟨["user_id", "user_id_hash"], []⟩ TARGET_DDS_TABLE_HUB_USERS
        none (some TARGET_DDS_SCHEMA_NAME) false 65536
        (.error (.uniqueViolation "duplicate key value"))).logs,
      e.level = LogLevel.error) := by
  decide

/-- C4 (amended): for every single-table bulk load, a uniqueness-constraint
violation raised by the target store is caught, logged as an ERROR-level
duplicate-load event (message `Data you are trying to load is already
exists: ...`), and the load returns normally; any other database error
propagates unchanged to the caller as a fatal error for that load, and a
successful copy returns normally. -/
theorem claim_C4_unique_violation_amended (df : DataFrame) (table_name : String)
    (columns : Option (List String)) (schema : Option String) (index : Bool)
    (block_size : Nat) (m : String) :
    (upload_dds_table df table_name columns schema index block_size
        (.error (.uniqueViolation m))).result = .ok () ∧
    (upload_dds_table df table_name columns schema index block_size
        (.error (.uniqueViolation m))).logs
      = [⟨.debug, "Uploading df into table: "
            ++ (copy_sql schema table_name (columns.getD df.columns)).tablePath
            ++ "..."⟩,
         ⟨.error, "Data you are trying to load is already exists: " ++ m⟩] ∧
    (upload_dds_table df table_name columns schema index block_size
        (.error (.otherError m))).result = .error (.otherError m) ∧
    (upload_dds_table df table_name columns schema index block_size
        (.ok ())).result = .ok () :=
  ⟨rfl, rfl, rfl, rfl⟩

/-- C5 (code bug): on the empty input batch the real pipeline does not
succeed: `transform_data_to_df []` (i.e. `pd.DataFrame.from_dict([])`)
builds a dataframe with no columns at all, so the very first column lookup
`df["user_id"]` inside `add_hashes_to_raw_data` raises `KeyError` — the
enrichment aborts before any projection is built or any load runs, instead
of producing four empty projections and four no-op loads. -/
theorem claim_C5_empty_batch_code_bug :
    transform_data_to_df [] = ⟨[], []⟩ ∧
    (transform_data_to_df []).columns = [] ∧
    add_hashes_to_raw_data_df (transform_data_to_df [])
      = .error (.keyError "user_id") := by
  decide

/-- C6: for every operation wrapped by `with_connection`: if the wrapped body
returns normally, the connection is committed and the result is returned
unchanged; if the body raises, the connection is rolled back and the same
exception is re-raised unchanged; and on both exit paths the connection is
closed (close is the final lifecycle event). -/
theorem claim_C6_with_connection_scoping {ε α : Type} (v : α) (e : ε) :
    with_connection (Except.ok v : Except ε α)
      = (Except.ok v, [ConnEvent.connect, ConnEvent.commit, ConnEvent.close]) ∧
    with_connection (Except.error e : Except ε α)
      = (Except.error e, [ConnEvent.connect, ConnEvent.rollback, ConnEvent.close]) ∧
    ConnEvent.close ∈ (with_connection (Except.ok v : Except ε α)).2 ∧
    ConnEvent.close ∈ (with_connection (Except.error e : Except ε α)).2 :=
  ⟨rfl, rfl, by simp [with_connection], by simp [with_connection]⟩

/-- C7: for every batch and every one of the four projections, the load
serializes rows in CSV form with no header row (the buffer is exactly the
newline-terminated data rows), encodes null cells as the sentinel value
backslash-N, targets exactly one `(schema, table)` path, and names the
copied columns explicitly (quoted, comma-joined) in the copy command. -/
theorem claim_C7_wire_contract (batch : List RawRecord)
    (copyRes : Except PgError Unit) :
    (upload_dds_table (split_df_to_tables (add_hashes_to_raw_data batch)).df_users_hub
        TARGET_DDS_TABLE_HUB_USERS none (some TARGET_DDS_SCHEMA_NAME) false 65536
        copyRes).copyCmd
      = ⟨"dds.h_users", "\"user_id\",\"user_id_hash\"", "\\N"⟩ ∧
    (upload_dds_table (split_df_to_tables (add_hashes_to_raw_data batch)).df_letters_hub
        TARGET_DDS_TABLE_HUB_LETTERS none (some TARGET_DDS_SCHEMA_NAME) false 65536
        copyRes).copyCmd
      = ⟨"dds.h_letters", "\"letter_id\",\"letter_id_hash\"", "\\N"⟩ ∧
    (upload_dds_table
        (split_df_to_tables (add_hashes_to_raw_data batch)).df_letters_satellite
        TARGET_DDS_TABLE_SATELLITE_LETTERS none (some TARGET_DDS_SCHEMA_NAME) false
        65536 copyRes).copyCmd
      = ⟨"dds.s_letters", "\"letter_id_hash\",\"title\",\"body\"", "\\N"⟩ ∧
    (upload_dds_table (split_df_to_tables (add_hashes_to_raw_data batch)).df_posts_link
        TARGET_DDS_TABLE_LINK_POSTS none (some TARGET_DDS_SCHEMA_NAME) false 65536
        copyRes).copyCmd
      = ⟨"dds.l_posts", "\"user_id_hash\",\"letter_id_hash\"", "\\N"⟩ ∧
    (∀ df : DataFrame, df_to_csv df false "\\N"
      = String.join (df.rows.map fun r => csvRow "\\N" r ++ "\n")) ∧
    csvField "\\N" Value.null = "\\N" := by
  refine ⟨?_, ?_, ?_, ?_, fun df => rfl, rfl⟩ <;>
    cases copyRes with
    | ok u => rfl
    | error err => cases err <;> rfl

/-- C8: for every projection dataframe and every positive chunk size, the
concatenation of the chunks written to the bulk-copy stream equals the full
serialized text of the projection — the transferred data is independent of
`block_size`. -/
theorem claim_C8_chunking_equivalence (df : DataFrame) (table_name : String)
    (columns : Option (List String)) (schema : Option String) (index : Bool)
    (block_size : Nat) (copyRes : Except PgError Unit) (hb : 0 < block_size) :
    String.join ((upload_dds_table df table_name columns schema index block_size
        copyRes).writes)
      = df_to_csv df index "\\N" := by
  have hwr : (upload_dds_table df table_name columns schema index block_size
      copyRes).writes = readChunks block_size (df_to_csv df index "\\N") := by
    cases copyRes with
    | ok u => rfl
    | error err => cases err <;> rfl
  rw [hwr, join_readChunks block_size (Nat.pos_iff_ne_zero.mp hb)]

/-- C8 witness: a concrete one-row users-hub load with chunk size 2. -/
theorem claim_C8_chunking_equivalence_witness :
    0 < 2 ∧
    String.join ((upload_dds_table
        ⟨["user_id", "user_id_hash"], [[Value.i 1, Value.s "ab"]]⟩
        TARGET_DDS_TABLE_HUB_USERS none (some TARGET_DDS_SCHEMA_NAME) false 2
        (.ok ())).writes)
      = df_to_csv ⟨["user_id", "user_id_hash"], [[Value.i 1, Value.s "ab"]]⟩
          false "\\N" :=
  ⟨by decide,
   claim_C8_chunking_equivalence
     ⟨["user_id", "user_id_hash"], [[Value.i 1, Value.s "ab"]]⟩
     TARGET_DDS_TABLE_HUB_USERS none (some TARGET_DDS_SCHEMA_NAME) false 2
     (.ok ()) (by decide)⟩

/-- C9 (counterexample): with the users-hub load raising a fatal error at
time 1 while the other three loads are still in flight until time 5, the
orchestrator `upload_dds_data` completes (re-raising that error) at time 1 —
strictly before the sibling loads have either succeeded or failed — refuting
the claim that it completes only when every one of the four invocations has
finished. -/
theorem claim_C9_wait_counterexample :
    (upload_dds_data ⟨1, .error (.otherError "connection lost")⟩ ⟨5, .ok ()⟩
        ⟨5, .ok ()⟩ ⟨5, .ok ()⟩).1
      < (⟨5, Except.ok ()⟩ : AsyncTask).finish ∧
    upload_dds_data ⟨1, .error (.otherError "connection lost")⟩ ⟨5, .ok ()⟩
        ⟨5, .ok ()⟩ ⟨5, .ok ()⟩
      = (1, .error (.otherError "connection lost")) := by
  decide

/-- C9 (amended): the orchestrator creates all four load tasks before its
first await (so all are launched only after projection is fully complete,
which produced the dataframes it was handed); when no load raises a fatal
error it completes only after all four have finished (at the maximum of
their finish times); but when an earlier-awaited load raises a fatal error
the orchestrator completes at that await, without waiting for the
later-awaited in-flight loads. -/
theorem claim_C9_orchestrator_amended (f1 f2 f3 f4 : Nat) (e : PgError)
    (t2 t3 t4 : AsyncTask) :
    upload_dds_data ⟨f1, .ok ()⟩ ⟨f2, .ok ()⟩ ⟨f3, .ok ()⟩ ⟨f4, .ok ()⟩
      = (max (max (max f1 f2) f3) f4, .ok ()) ∧
    upload_dds_data ⟨f1, .error e⟩ t2 t3 t4 = (f1, .error e) := by
  constructor
  · simp [upload_dds_data, awaitTask, Nat.zero_max]
  · simp [upload_dds_data, awaitTask, Nat.zero_max]

/-- C10: the user-key hash and the item-key hash are computed by the
identical function of the stringified id, so for every enriched record whose
stringified `user_id` equals its stringified `id`, `user_id_hash` equals
`letter_id_hash` — hash values do not distinguish the user-hub key space
from the letter-hub key space. -/
theorem claim_C10_hash_key_spaces (batch : List RawRecord) (e : EnrichedRecord)
    (he : e ∈ add_hashes_to_raw_data batch)
    (h : toString e.user_id = toString e.id) :
    e.user_id_hash = e.letter_id_hash := by
  rcases List.mem_map.mp he with ⟨r, _, rfl⟩
  simp only [enrichRecord] at h ⊢
  exact congrArg md5_hexdigest h

/-- C10 witness: the record with `user_id = id = 1`. -/
theorem claim_C10_hash_key_spaces_witness :
    enrichRecord ⟨1, 1, none, none⟩ ∈ add_hashes_to_raw_data [⟨1, 1, none, none⟩] ∧
    toString (enrichRecord ⟨1, 1, none, none⟩).user_id
      = toString (enrichRecord ⟨1, 1, none, none⟩).id ∧
    (enrichRecord ⟨1, 1, none, none⟩).user_id_hash
      = (enrichRecord ⟨1, 1, none, none⟩).letter_id_hash := by
  refine ⟨List.mem_singleton.mpr rfl, rfl, ?_⟩
  exact claim_C10_hash_key_spaces [⟨1, 1, none, none⟩] (enrichRecord ⟨1, 1, none, none⟩)
    (List.mem_singleton.mpr rfl) rfl

end Etl

